import Mathlib

/-!
Verification development for the server-manager repository.

The definitions below are shallow embeddings of the supervision logic in
src/server.rs, src/rcon.rs, src/backup.rs, src/child.rs and src/mail.rs.
Time is modelled as a monotone count of elapsed seconds (the source uses
Instant, which is monotone); bounded-channel sends, network calls and
subprocess invocations are modelled by environment records that state the
outcome the outside world produced for each call.
-/

namespace ServerManager

/-- Decision of an escalation check: keep retrying or stop for good. -/
inductive Decision
  | cont
  | stop
deriving DecidableEq, Repr

/-- State of a time-windowed incident counter: the timestamp (in seconds)
of the last recorded incident and the count of recent incidents.
Both the supervisor loop in src/server.rs and the RCON session loop in
src/rcon.rs keep this pair as two local variables. -/
structure EscalationState where
  lastIncident : Nat
  recentIncidents : Nat
deriving DecidableEq, Repr

/-- The supervisor-level incident bookkeeping from ServerManager::start in
src/server.rs (lines 80-96): reset the count when the gap since the last
incident exceeds the quiet window, increment it, stop when the incremented
count exceeds the threshold, and otherwise record the incident time.
The source inlines this with quietWindow = 15 * 60 and threshold = 5. -/
def recordIncident (quietWindow threshold now : Nat) (s : EscalationState) :
    EscalationState × Decision :=
  let c0 := if now - s.lastIncident > quietWindow then 0 else s.recentIncidents
  let c := c0 + 1
  if c > threshold then
    ({ lastIncident := s.lastIncident, recentIncidents := c }, Decision.stop)
  else
    ({ lastIncident := now, recentIncidents := c }, Decision.cont)

/-- Which of the three raced futures in ServerManager::start finished first:
the supervised process exited, the RCON session manager failed terminally,
or the backup scheduler failed terminally. -/
inductive RaceOutcome
  | procExit
  | rconFail
  | backupFail
deriving DecidableEq, Repr

/-- What the supervisor loop does after the race settles: restart the
server after 10 seconds, or leave the loop for good. -/
inductive SupDecision
  | restart
  | exitRun
deriving DecidableEq, Repr

/-- The restart-or-stop decision taken after every race in
ServerManager::start (src/server.rs lines 79-100).  The source runs this
block identically for all three race outcomes: when auto_restart is set it
applies the escalation counter (quiet window 15 minutes, threshold 5), and
otherwise it exits immediately. -/
def supervisorAfterRace (autoRestart : Bool) (now : Nat) (s : EscalationState) :
    EscalationState × SupDecision :=
  if autoRestart then
    match recordIncident (15 * 60) 5 now s with
    | (s1, Decision.stop) => (s1, SupDecision.exitRun)
    | (s1, Decision.cont) => (s1, SupDecision.restart)
  else
    (s, SupDecision.exitRun)

/-- Run of the supervisor loop over a list of race outcomes, each tagged
with the time (in seconds) at which it was observed.  Mirrors the loop in
ServerManager::start: each iteration ends with supervisorAfterRace, and the
loop exits on the first exitRun decision. -/
def supervisorRun (autoRestart : Bool) :
    EscalationState → List (RaceOutcome × Nat) → List SupDecision
  | _, [] => []
  | s, (_, now) :: rest =>
    match supervisorAfterRace autoRestart now s with
    | (s1, SupDecision.restart) => SupDecision.restart :: supervisorRun autoRestart s1 rest
    | (_, SupDecision.exitRun) => [SupDecision.exitRun]

/-- Where an invocation of emergency_shutdown comes from: an explicit call
in a select branch of ServerManager::start, or the Drop implementation of
ChildKiller in src/child.rs, which runs when the handle leaves scope at the
end of the loop iteration. -/
inductive SdSource
  | explicitCall
  | dropGuard
deriving DecidableEq, Repr

/-- The emergency_shutdown invocations performed during one iteration of
the supervisor loop, in order, as a function of the race outcome.  From
src/server.rs lines 60-77: the rconFail and backupFail select branches call
emergency_shutdown explicitly; the procExit branch does not.  In every case
the ChildKiller wrapper (src/child.rs lines 9-13) is dropped when the
iteration's scope ends, and its Drop impl runs emergency_shutdown once
more on the same process handle. -/
def iterationShutdownTrace : RaceOutcome → List SdSource
  | RaceOutcome.procExit => [SdSource.dropGuard]
  | RaceOutcome.rconFail => [SdSource.explicitCall, SdSource.dropGuard]
  | RaceOutcome.backupFail => [SdSource.explicitCall, SdSource.dropGuard]

/-- One full supervisor iteration: the shutdown invocations caused by the
race outcome, followed by the restart-or-stop decision.  The decision part
does not inspect the outcome, mirroring the source where the escalation
block after the select is shared by all branches. -/
def supervisorIteration (autoRestart : Bool) (o : RaceOutcome) (now : Nat)
    (s : EscalationState) : List SdSource × (EscalationState × SupDecision) :=
  (iterationShutdownTrace o, supervisorAfterRace autoRestart now s)

/-- Observable events of ServerManager::emergency_shutdown
(src/server.rs lines 106-119), in program order. -/
inductive SdEvent
  | sendSigint
  | waitWithTimeout20
  | sendSigkill
  | waitUnconditional
deriving DecidableEq, Repr

/-- Event trace of emergency_shutdown as a function of whether the
supervised process exits within the 20-second window opened after the
interrupt signal.  The source sends SIGINT, awaits status() under a
20-second timeout, and only if that times out sends SIGKILL and then
awaits status() with no timeout. -/
def emergencyShutdownTrace (exitsWithin20 : Bool) : List SdEvent :=
  SdEvent.sendSigint :: SdEvent.waitWithTimeout20 ::
    (if exitsWithin20 then [] else [SdEvent.sendSigkill, SdEvent.waitUnconditional])

/-- Process-liveness model: after the trace, the process is gone when it
exited by itself inside the awaited window, or when it was sent SIGKILL
and then reaped by an unconditional wait (SIGKILL cannot be ignored). -/
def processGone (exitsWithin20 : Bool) (tr : List SdEvent) : Bool :=
  exitsWithin20 ||
    (tr.contains SdEvent.sendSigkill && tr.contains SdEvent.waitUnconditional)

/-- The command variants of src/rcon.rs.  The Await variant carries a
one-shot acknowledgment channel in the source; the channel itself is not
part of the command's identity and is elided here. -/
inductive MinecraftCommand
  | saveOn
  | saveAll (flush : Bool)
  | saveOff
  | broadcast (msg : String)
  | awaitCmd
deriving DecidableEq, Repr

/-- Outcome of one attempt to open the RCON connection in
RconManager::inner: accepted, refused with an I/O error (the case the
source matches as rcon::Error::Io, typically connection refused while the
server is still booting), or failed with any other error. -/
inductive ConnectOutcome
  | accepted
  | refusedIo
  | otherErr
deriving DecidableEq, Repr

/-- Environment script for one invocation of RconManager::inner: how the
connection attempt goes, whether re-sending a pending command succeeds,
the commands received from the shared queue paired with whether forwarding
each of them succeeds, and whether the queue eventually reports closure.
In the source the Await variant's embedded send ignores errors, so a
forwarding failure on it cannot actually occur; scripts exercising
failures use the other variants. -/
structure InnerEnv where
  connect : ConnectOutcome
  pendingSendOk : Bool
  queue : List (MinecraftCommand × Bool)
  recvClosed : Bool
deriving DecidableEq, Repr

/-- Result of one invocation of RconManager::inner (src/rcon.rs lines
78-126): tolerated is the Ok return taken for a first-attempt I/O refusal;
failed carries the command the error remembered (the cmd field of
RconError, None for connection and queue-receive errors); activeForever
models the session staying in its forwarding loop with no further events,
from which inner never returns. -/
inductive InnerResult
  | tolerated
  | failed (cmd : Option MinecraftCommand)
  | activeForever
deriving DecidableEq, Repr

/-- The forwarding loop at the bottom of RconManager::inner: receive a
command, forward it, and on a forwarding failure return an error that
remembers that command.  Also yields the list of commands whose forwarding
was attempted, in order.  An exhausted script with recvClosed models the
queue-receive error (converted to an error remembering no command); an
exhausted script without closure leaves the session active. -/
def processQueue : List (MinecraftCommand × Bool) → Bool → InnerResult × List MinecraftCommand
  | [], recvClosed =>
    ((if recvClosed then InnerResult.failed none else InnerResult.activeForever), [])
  | (c, ok) :: rest, recvClosed =>
    if ok then
      let r := processQueue rest recvClosed
      (r.1, c :: r.2)
    else
      (InnerResult.failed (some c), [c])

/-- One invocation of RconManager::inner from src/rcon.rs: connect (a
first-attempt I/O refusal returns Ok, any other connection error returns
an error remembering no command); on success, first re-send the pending
command if one was handed in, remembering it again if that re-send fails;
then enter the forwarding loop.  The second component lists the commands
whose forwarding was attempted on this connection, in order. -/
def innerModel (firstAttempt : Bool) (pending : Option MinecraftCommand)
    (env : InnerEnv) : InnerResult × List MinecraftCommand :=
  match env.connect with
  | ConnectOutcome.refusedIo =>
    ((if firstAttempt then InnerResult.tolerated else InnerResult.failed none), [])
  | ConnectOutcome.otherErr => (InnerResult.failed none, [])
  | ConnectOutcome.accepted =>
    match pending with
    | some p =>
      if env.pendingSendOk then
        let r := processQueue env.queue env.recvClosed
        (r.1, p :: r.2)
      else
        (InnerResult.failed (some p), [p])
    | none => processQueue env.queue env.recvClosed

/-- The local state of RconManager::start in src/rcon.rs (lines 35-41):
the escalation pair, the first-attempt flag, the count of tolerated
first-contact attempts, and the remembered pending command. -/
structure RconState where
  lastIncident : Nat
  recentIncidents : Nat
  firstAttempt : Bool
  firstAttemptAttempts : Nat
  pendingMsg : Option MinecraftCommand
deriving DecidableEq, Repr

/-- Initial state of RconManager::start, entered at time t0. -/
def rconInitial (t0 : Nat) : RconState :=
  { lastIncident := t0, recentIncidents := 0, firstAttempt := true,
    firstAttemptAttempts := 0, pendingMsg := none }

/-- Outcome of one iteration of the loop in RconManager::start: loop again
from a new state after sleeping the given number of seconds, exit with a
terminal error log, or stay inside inner with the session active. -/
inductive RconStep
  | looping (s : RconState) (sleepSecs : Nat)
  | terminal (log : List String)
  | sessionActive
deriving DecidableEq, Repr

/-- One iteration of the loop in RconManager::start (src/rcon.rs lines
43-74), at time now, against environment env.  On an error from inner:
clear the first-attempt flag, reset the incident count when the gap since
the last incident exceeds the 10-minute quiet window, exit when the count
exceeds 5, and otherwise record the incident time, sleep 1 second, and
remember the command carried by the error.  The source never increments
recent_incidents anywhere in this function.  On the tolerated Ok return:
bump the first-contact attempt count, exit when it exceeds 60, and
otherwise sleep 10 seconds and clear the pending command. -/
def rconStep (now : Nat) (env : InnerEnv) (s : RconState) : RconStep :=
  match (innerModel s.firstAttempt s.pendingMsg env).1 with
  | InnerResult.failed cmd =>
    let c := if now - s.lastIncident > 10 * 60 then 0 else s.recentIncidents
    if c > 5 then
      RconStep.terminal ["[RCON] Too many RCON incidents in a short period of time."]
    else
      RconStep.looping
        { lastIncident := now, recentIncidents := c, firstAttempt := false,
          firstAttemptAttempts := s.firstAttemptAttempts, pendingMsg := cmd } 1
  | InnerResult.tolerated =>
    let fa := s.firstAttemptAttempts + 1
    if fa > 60 then
      RconStep.terminal ["[RCON] Server took too long before first contact."]
    else
      RconStep.looping
        { lastIncident := s.lastIncident, recentIncidents := s.recentIncidents,
          firstAttempt := s.firstAttempt, firstAttemptAttempts := fa,
          pendingMsg := none } 10
  | InnerResult.activeForever => RconStep.sessionActive

/-- Result of running RconManager::start over a finite environment
script: still running with a state, stopped with a terminal log, or
parked inside an active session. -/
inductive RconRun
  | running (s : RconState)
  | stopped (log : List String)
  | active
deriving DecidableEq, Repr

/-- Fold of rconStep over a script of timed environments, mirroring the
outer loop of RconManager::start. -/
def rconRun : RconState → List (Nat × InnerEnv) → RconRun
  | s, [] => RconRun.running s
  | s, (now, env) :: rest =>
    match rconStep now env s with
    | RconStep.looping s1 _ => rconRun s1 rest
    | RconStep.terminal log => RconRun.stopped log
    | RconStep.sessionActive => RconRun.active

/-- Outcome of one bounded command-queue send (or of the handshake
receive) in src/backup.rs: delivered, timed out (the Err arm of the
timeout wrapper), or failed because the channel was closed (the Ok(Err)
arm). -/
inductive SendRes
  | delivered
  | timedOut
  | chanClosed
deriving DecidableEq, Repr

/-- The fields of BackupConfig that the scheduler branches on, plus the
two numbers it forwards to the external duplicity tool. -/
structure BackupCfg where
  flushOnSave : Bool
  silent : Bool
  keepFullBackup : Nat
  fullBackupEvery : Nat
  rcloneConfigured : Bool
deriving DecidableEq, Repr

/-- Environment script for one iteration of BackupManager::start in
src/backup.rs: the result of each queue send, of the handshake receive,
of the two duplicity invocations (none for success, an error text
otherwise), the measured world-folder size (none when the measurement
fails), and the result of the k-th rclone sync attempt. -/
structure BackupEnv where
  broadcastStartRes : SendRes
  saveOffRes : SendRes
  saveAllRes : SendRes
  awaitSendRes : SendRes
  awaitRecvRes : SendRes
  duplicityBackupErr : Option String
  saveOnRes : SendRes
  folderSize : Option Nat
  broadcastDoneRes : SendRes
  cleanupErr : Option String
  rcloneResults : Nat → Option String

/-- Observable events of one backup iteration, in order: the queue sends,
the handshake wait, the optional 2-minute grace sleep, the external tool
invocations, and the completion broadcast carrying the measured size (none
when measuring failed). -/
inductive BkEvent
  | broadcastStart
  | saveOff
  | saveAll (flush : Bool)
  | awaitSend
  | awaitRecvWait
  | graceSleep
  | duplicityBackup
  | saveOn
  | broadcastDone (size : Option Nat)
  | duplicityCleanup
  | rcloneSync (attempts : Nat)
deriving DecidableEq, Repr

/-- The terminal error log a failed send produces in src/backup.rs: the
timeout arm and the closed-channel arm each return their own line. -/
def sendOutcome (r : SendRes) (timeoutMsg failMsg : String) : Option (List String) :=
  match r with
  | SendRes.delivered => none
  | SendRes.timedOut => some [timeoutMsg]
  | SendRes.chanClosed => some [failMsg]

/-- The rclone retry loop of src/backup.rs: while fewer than 5 attempts
have failed, try the sync; a failure bumps the attempt count and records
the error, a success leaves the loop.  Returns the final attempt count and
the last recorded error.  The fuel argument counts the remaining loop
entries permitted by the attempts-below-5 condition. -/
def rcloneGo (results : Nat → Option String) : Nat → Nat → Option String → Nat × Option String
  | 0, attempts, err => (attempts, err)
  | fuel + 1, attempts, err =>
    match results attempts with
    | some e => rcloneGo results fuel (attempts + 1) (some e)
    | none => (attempts, err)

/-- Entry point of the rclone retry loop: zero attempts, no recorded
error, and at most 5 loop entries. -/
def rcloneLoop (results : Nat → Option String) : Nat × Option String :=
  rcloneGo results 5 0 none

/-- One iteration of the loop in BackupManager::start (src/backup.rs lines
48-222), returning the event trace and, when a fatal condition arose, the
terminal error log (none means the iteration completed and the scheduler
loops again after the interval).  The order of steps and every error
string are taken verbatim from the source, including its reuse of the
start-message wording for the completion broadcast and of the
disable-saving wording for the save-on send. -/
def runBackupIteration (cfg : BackupCfg) (env : BackupEnv) :
    List BkEvent × Option (List String) :=
  let tr0 : List BkEvent := if cfg.silent then [] else [BkEvent.broadcastStart]
  match if cfg.silent then none else
      sendOutcome env.broadcastStartRes
        "[BACKUP] Timed out while broadcasting start message."
        "[BACKUP] Failed to broadcast start message." with
  | some log => (tr0, some log)
  | none =>
  let tr1 := tr0 ++ [BkEvent.saveOff]
  match sendOutcome env.saveOffRes
      "[BACKUP] Timed out while requesting to disable saving."
      "[BACKUP] Failed to disable saving." with
  | some log => (tr1, some log)
  | none =>
  let tr2 := tr1 ++ [BkEvent.saveAll cfg.flushOnSave]
  match sendOutcome env.saveAllRes
      "[BACKUP] Timed out while requesting save."
      "[BACKUP] Failed to save." with
  | some log => (tr2, some log)
  | none =>
  let tr3 := tr2 ++ [BkEvent.awaitSend]
  match sendOutcome env.awaitSendRes
      "[BACKUP] Timed out while requesting to send await handle."
      "[BACKUP] Failed to send await handle." with
  | some log => (tr3, some log)
  | none =>
  let tr4 := tr3 ++ [BkEvent.awaitRecvWait]
  match sendOutcome env.awaitRecvRes
      "[BACKUP] Timed out while waiting for backup."
      "[BACKUP] Failed to wait for save completion." with
  | some log => (tr4, some log)
  | none =>
  let tr5 := if cfg.flushOnSave then tr4 else tr4 ++ [BkEvent.graceSleep]
  let tr6 := tr5 ++ [BkEvent.duplicityBackup]
  match env.duplicityBackupErr with
  | some e => (tr6, some ["[BACKUP] Failed to perform duplicity backup:\n" ++ e])
  | none =>
  let tr7 := tr6 ++ [BkEvent.saveOn]
  match sendOutcome env.saveOnRes
      "[BACKUP] Timed out while requesting to disable saving."
      "[BACKUP] Failed to disable saving." with
  | some log => (tr7, some log)
  | none =>
  let tr8 := if cfg.silent then tr7 else tr7 ++ [BkEvent.broadcastDone env.folderSize]
  match if cfg.silent then none else
      sendOutcome env.broadcastDoneRes
        "[BACKUP] Timed out while broadcasting start message."
        "[BACKUP] Failed to broadcast start message." with
  | some log => (tr8, some log)
  | none =>
  let tr9 := tr8 ++ [BkEvent.duplicityCleanup]
  match env.cleanupErr with
  | some e => (tr9, some ["[BACKUP] Failed to perform duplicity cleanup:\n" ++ e])
  | none =>
  if cfg.rcloneConfigured then
    let r := rcloneLoop env.rcloneResults
    let tr10 := tr9 ++ [BkEvent.rcloneSync r.1]
    match r.2 with
    | some e =>
      if r.1 ≥ 5 then
        (tr10,
          some ["[ServerManager] [BACKUP] Failed to sync backup data to remote:\n" ++ e])
      else
        (tr10, none)
    | none => (tr10, none)
  else
    (tr9, none)

/-- The scheduler loop: iterations run one after another until one ends
with a terminal log; the traces of the executed iterations are collected.
A none outcome means every scripted iteration completed and the scheduler
is still alive. -/
def runSchedule (cfg : BackupCfg) : List BackupEnv → List (List BkEvent) × Option (List String)
  | [] => ([], none)
  | env :: rest =>
    match runBackupIteration cfg env with
    | (tr, some log) => ([tr], some log)
    | (tr, none) =>
      let r := runSchedule cfg rest
      (tr :: r.1, r.2)

/-- An environment in which every external interaction of one backup
iteration succeeds, the measured folder size is sz, and the rclone
attempts behave as f. -/
def allOkEnv (sz : Option Nat) (f : Nat → Option String) : BackupEnv :=
  { broadcastStartRes := SendRes.delivered, saveOffRes := SendRes.delivered,
    saveAllRes := SendRes.delivered, awaitSendRes := SendRes.delivered,
    awaitRecvRes := SendRes.delivered, duplicityBackupErr := none,
    saveOnRes := SendRes.delivered, folderSize := sz,
    broadcastDoneRes := SendRes.delivered, cleanupErr := none,
    rcloneResults := f }

/-- An incident report queued to the mailer (MailRequest in src/mail.rs):
the log lines, the final flag, and the timestamp. -/
structure MailRequest where
  errLog : List String
  finalIncident : Bool
  time : Nat
deriving DecidableEq, Repr

/-- The send-retry loop of MailManager::start (src/mail.rs lines 109-125),
parameterized by a script giving the result of each successive send.  The
source keeps an attempts counter starting at 0: each failed send
increments it, and the loop is abandoned once the incremented counter
exceeds 5.  Here retriesLeft is 5 minus the current attempts counter and
sent is the number of sends already performed; the result is the total
number of sends performed and whether the digest was delivered. -/
def mailSendGo (script : Nat → Bool) (sent : Nat) : Nat → Nat × Bool
  | 0 => (1, script sent)
  | retriesLeft + 1 =>
    if script sent then
      (1, true)
    else
      let t := mailSendGo script (sent + 1) retriesLeft
      (t.1 + 1, t.2)

/-- Entry to the send-retry loop: no sends performed yet, attempts counter
at 0, hence 5 failures still tolerated before the loop breaks. -/
def mailSendLoop (script : Nat → Bool) : Nat × Bool :=
  mailSendGo script 0 5

/-- What the mailer does after attempting to send a digest: terminate (the
break out of the outer loop followed by the Ok return) or loop back to
waiting for the next report. -/
inductive MailerNext
  | terminate
  | loopBack
deriving DecidableEq, Repr

/-- The is_final test of src/mail.rs: whether any report of the batch has
the final flag set. -/
def isFinalBatch (batch : List MailRequest) : Bool :=
  batch.any (fun r => r.finalIncident)

/-- One pass of the outer loop of MailManager::start after a batch has
been collected: run the send-retry loop, then terminate exactly when the
batch contained a final report, independently of whether sending
succeeded.  Returns (sends performed, delivered, what the mailer does
next). -/
def mailerBatchStep (batch : List MailRequest) (script : Nat → Bool) :
    Nat × Bool × MailerNext :=
  let r := mailSendLoop script
  (r.1, r.2, if isFinalBatch batch then MailerNext.terminate else MailerNext.loopBack)

/-- Detects the terminal log with which RconManager::start reports
escalation-triggered failure. -/
def escalationStopped : RconRun → Bool
  | RconRun.stopped log =>
    decide (log = ["[RCON] Too many RCON incidents in a short period of time."])
  | _ => false

/-- Environment whose first queued command fails to forward. -/
def forwardFailEnv : InnerEnv :=
  { connect := ConnectOutcome.accepted, pendingSendOk := true,
    queue := [(MinecraftCommand.saveOff, false)], recvClosed := false }

/-- Environment in which the connection succeeds but re-sending the
pending command fails. -/
def redeliveryFailEnv : InnerEnv :=
  { connect := ConnectOutcome.accepted, pendingSendOk := false,
    queue := [], recvClosed := false }

/-- Environment in which the connection attempt is refused with an I/O
error. -/
def refusalEnv : InnerEnv :=
  { connect := ConnectOutcome.refusedIo, pendingSendOk := true,
    queue := [], recvClosed := false }

/-- Six consecutive incidents, one second apart: a forwarding failure,
then five reconnections on which redelivering the remembered command
fails, all within the 10-minute quiet window. -/
def incidentScript6 : List (Nat × InnerEnv) :=
  [(0, forwardFailEnv), (1, redeliveryFailEnv), (2, redeliveryFailEnv),
   (3, redeliveryFailEnv), (4, redeliveryFailEnv), (5, redeliveryFailEnv)]

/-- Session-manager state reached after a successful contact followed by
one forwarding failure: first-attempt flag cleared, a command remembered
for redelivery, incident count still zero (the source never increments
it). -/
def afterContactState : RconState :=
  { lastIncident := 0, recentIncidents := 0, firstAttempt := false,
    firstAttemptAttempts := 0, pendingMsg := some (MinecraftCommand.saveAll true) }

/-- Backup environment in which everything succeeds except the completion
broadcast, which times out. -/
def doneBroadcastTimeoutEnv : BackupEnv :=
  { allOkEnv (some 5) (fun _ => none) with broadcastDoneRes := SendRes.timedOut }

end ServerManager

namespace ServerManager

/-- The post-increment incident count recorded by the supervisor
bookkeeping: the quiet-window reset followed by the increment. -/
theorem recordIncident_count (q th now : Nat) (s : EscalationState) :
    (recordIncident q th now s).1.recentIncidents =
      (if now - s.lastIncident > q then 0 else s.recentIncidents) + 1 := by
  simp only [recordIncident]
  split <;> split <;> rfl

/-- The counter state produced by supervisorAfterRace with auto-restart on
is the recordIncident post-state, whatever the decision. -/
theorem supervisorAfterRace_fst (now : Nat) (s : EscalationState) :
    (supervisorAfterRace true now s).1 = (recordIncident (15 * 60) 5 now s).1 := by
  unfold supervisorAfterRace
  rcases h : recordIncident (15 * 60) 5 now s with ⟨s1, d⟩
  cases d <;> simp [h]

/-- Claim C5: for the supervisor's escalation counter (quiet window 15
minutes, threshold 5), the incident bookkeeping returns the stop decision
exactly when the post-increment count exceeds 5 and never before; and for
six incidents within a 5-minute span with auto-restart enabled, the first
five lead to a restart and the sixth makes the supervisor stop. -/
theorem c5_supervisor_threshold :
    (∀ (now : Nat) (s : EscalationState),
        (recordIncident (15 * 60) 5 now s).2 = Decision.stop ↔
          (recordIncident (15 * 60) 5 now s).1.recentIncidents > 5)
    ∧ supervisorRun true { lastIncident := 0, recentIncidents := 0 }
        [(RaceOutcome.rconFail, 0), (RaceOutcome.rconFail, 60), (RaceOutcome.rconFail, 120),
         (RaceOutcome.rconFail, 180), (RaceOutcome.rconFail, 240), (RaceOutcome.rconFail, 300)] =
        [SupDecision.restart, SupDecision.restart, SupDecision.restart,
         SupDecision.restart, SupDecision.restart, SupDecision.exitRun] := by
  constructor
  · intro now s
    simp only [recordIncident]
    split <;> split <;> simp_all
  · decide

/-- Witness for claim C5: a counter already at five recent incidents stops
on the next incident, whose post-increment count is six. -/
theorem c5_supervisor_threshold_witness :
    (recordIncident (15 * 60) 5 10 { lastIncident := 0, recentIncidents := 5 }).2 =
      Decision.stop :=
  (c5_supervisor_threshold.1 10 { lastIncident := 0, recentIncidents := 5 }).mpr (by decide)

/-- Claim C10: when auto-restart is enabled, every race outcome, including
a clean voluntary process exit, goes through the same escalation
bookkeeping and increments the counter; six clean exits within the
15-minute quiet window yield five restarts and then a permanent stop. -/
theorem c10_clean_exit_counts :
    (∀ (now : Nat) (s : EscalationState) (o : RaceOutcome),
        ((supervisorIteration true o now s).2.1).recentIncidents =
          (if now - s.lastIncident > 15 * 60 then 0 else s.recentIncidents) + 1)
    ∧ supervisorRun true { lastIncident := 0, recentIncidents := 0 }
        [(RaceOutcome.procExit, 0), (RaceOutcome.procExit, 10), (RaceOutcome.procExit, 20),
         (RaceOutcome.procExit, 30), (RaceOutcome.procExit, 40), (RaceOutcome.procExit, 50)] =
        [SupDecision.restart, SupDecision.restart, SupDecision.restart,
         SupDecision.restart, SupDecision.restart, SupDecision.exitRun] := by
  constructor
  · intro now s o
    show ((supervisorAfterRace true now s).1).recentIncidents = _
    rw [supervisorAfterRace_fst]
    exact recordIncident_count (15 * 60) 5 now s
  · decide

/-- Counterexample to claim C6: when the session manager is the deciding
race outcome, the process handle's shutdown sequence is invoked twice in
that iteration (the explicit call in the select branch and then the Drop
guard), not exactly once. -/
theorem c6_double_shutdown :
    (iterationShutdownTrace RaceOutcome.rconFail).length = 2 ∧
    decide ((iterationShutdownTrace RaceOutcome.rconFail).length = 1) = false := by
  decide

/-- Claim C6 as amended: on every exit path of the scope owning the
process handle the shutdown sequence is triggered at least once before the
handle is released, with the Drop guard always last; it runs exactly once
when the process exited on its own, and twice (explicit call plus Drop
guard) when the session manager or the backup scheduler was the deciding
outcome. -/
theorem c6_shutdown_guarantee :
    iterationShutdownTrace RaceOutcome.procExit = [SdSource.dropGuard] ∧
    iterationShutdownTrace RaceOutcome.rconFail =
      [SdSource.explicitCall, SdSource.dropGuard] ∧
    iterationShutdownTrace RaceOutcome.backupFail =
      [SdSource.explicitCall, SdSource.dropGuard] ∧
    (iterationShutdownTrace RaceOutcome.procExit).getLast? = some SdSource.dropGuard ∧
    (iterationShutdownTrace RaceOutcome.rconFail).getLast? = some SdSource.dropGuard ∧
    (iterationShutdownTrace RaceOutcome.backupFail).getLast? = some SdSource.dropGuard := by
  decide

/-- A looping step of the session-manager loop never increases the
incident count: from a state with count zero it reaches only states with
count zero, since the source never increments recent_incidents. -/
theorem rconStep_looping_zero (now : Nat) (env : InnerEnv) (s s1 : RconState) (k : Nat)
    (h0 : s.recentIncidents = 0) (h : rconStep now env s = RconStep.looping s1 k) :
    s1.recentIncidents = 0 := by
  simp only [rconStep] at h
  split at h
  · rw [h0, ite_self] at h
    rw [if_neg (by decide : ¬(0 > 5))] at h
    injection h with h1 h2
    subst h1
    rfl
  · split at h
    · exact absurd h (by simp)
    · injection h with h1 h2
      subst h1
      exact h0
  · exact absurd h (by simp)

/-- From a state with incident count zero, a step of the session-manager
loop cannot exit with the too-many-incidents log: the guard compares a
count that is still zero against the threshold 5. -/
theorem rconStep_not_tooMany (now : Nat) (env : InnerEnv) (s : RconState)
    (h0 : s.recentIncidents = 0) :
    rconStep now env s ≠
      RconStep.terminal ["[RCON] Too many RCON incidents in a short period of time."] := by
  simp only [rconStep]
  split
  · simp [h0]
  · split
    · intro hc
      injection hc with hlog
      simp at hlog
    · simp
  · simp

/-- Along any environment script, a session-manager run that starts with
incident count zero never stops with the too-many-incidents log. -/
theorem rconRun_zero_not_tooMany (script : List (Nat × InnerEnv)) :
    ∀ s : RconState, s.recentIncidents = 0 →
      rconRun s script ≠
        RconRun.stopped ["[RCON] Too many RCON incidents in a short period of time."] := by
  induction script with
  | nil =>
    intro s _
    simp [rconRun]
  | cons p rest ih =>
    intro s h0
    obtain ⟨now, env⟩ := p
    unfold rconRun
    split
    · next s1 k heq => exact ih s1 (rconStep_looping_zero now env s s1 k h0 heq)
    · next log heq =>
      intro hc
      injection hc with hlog
      subst hlog
      exact rconStep_not_tooMany now env s h0 heq
    · simp

/-- Claim C1: contrary to the claim, the session manager's escalation
counter is never incremented by the source (recent_incidents is only
declared, reset and compared in RconManager::start), so no run starting
from the initial state can ever stop with the too-many-incidents log, and
in particular six incidents in six seconds leave the manager running with
the count still at zero instead of stopping it at the sixth. -/
theorem c1_rcon_escalation_never_stops :
    (∀ (t0 : Nat) (script : List (Nat × InnerEnv)),
        escalationStopped (rconRun (rconInitial t0) script) = false)
    ∧ rconRun (rconInitial 0) incidentScript6 =
        RconRun.running
          { lastIncident := 5, recentIncidents := 0, firstAttempt := false,
            firstAttemptAttempts := 0, pendingMsg := some MinecraftCommand.saveOff } := by
  constructor
  · intro t0 script
    have h := rconRun_zero_not_tooMany script (rconInitial t0) rfl
    cases hr : rconRun (rconInitial t0) script with
    | running s => rfl
    | stopped log =>
      have h2 : RconRun.stopped log ≠
          RconRun.stopped ["[RCON] Too many RCON incidents in a short period of time."] :=
        hr ▸ h
      simp only [escalationStopped, decide_eq_false_iff_not]
      intro hc
      exact h2 (by rw [hc])
    | active => rfl
  · decide

/-- Claim C8: a connection refusal while the first-attempt flag is still
set (no prior successful contact, only tolerated refusals so far) leaves
the escalation state untouched and retries silently after 10 seconds; the
61st such refusal terminates the session manager with the first-contact
log line; and at the failing input, a refusal after a prior successful
contact takes the incident path (1-second reconnect delay) without
incrementing the incident count, which stays zero. -/
theorem c8_first_contact_tolerance :
    (∀ (now : Nat) (env : InnerEnv) (s : RconState),
        s.firstAttempt = true → env.connect = ConnectOutcome.refusedIo →
        s.firstAttemptAttempts < 60 →
        rconStep now env s = RconStep.looping
          { lastIncident := s.lastIncident, recentIncidents := s.recentIncidents,
            firstAttempt := s.firstAttempt,
            firstAttemptAttempts := s.firstAttemptAttempts + 1, pendingMsg := none } 10)
    ∧ (∀ (now : Nat) (env : InnerEnv) (s : RconState),
        s.firstAttempt = true → env.connect = ConnectOutcome.refusedIo →
        s.firstAttemptAttempts = 60 →
        rconStep now env s = RconStep.terminal
          ["[RCON] Server took too long before first contact."])
    ∧ rconStep 1 refusalEnv afterContactState = RconStep.looping
        { lastIncident := 1, recentIncidents := 0, firstAttempt := false,
          firstAttemptAttempts := 0, pendingMsg := none } 1 := by
  refine ⟨?_, ?_, ?_⟩
  · intro now env s h1 h2 h3
    have hi : (innerModel s.firstAttempt s.pendingMsg env).1 = InnerResult.tolerated := by
      unfold innerModel
      rw [h2]
      simp [h1]
    simp only [rconStep, hi]
    rw [if_neg (by omega)]
  · intro now env s h1 h2 h3
    have hi : (innerModel s.firstAttempt s.pendingMsg env).1 = InnerResult.tolerated := by
      unfold innerModel
      rw [h2]
      simp [h1]
    simp only [rconStep, hi, h3]
    rw [if_pos (by omega)]
  · decide

/-- Witness for claim C8: the very first connection refusal, from the
initial state, is tolerated and retried after 10 seconds without touching
the escalation state. -/
theorem c8_first_contact_tolerance_witness :
    rconStep 0 refusalEnv (rconInitial 7) = RconStep.looping
      { lastIncident := 7, recentIncidents := 0, firstAttempt := true,
        firstAttemptAttempts := 1, pendingMsg := none } 10 :=
  c8_first_contact_tolerance.1 0 refusalEnv (rconInitial 7) rfl rfl (by decide)

/-- Claim C7: the shutdown sequence first sends the interrupt signal; when
the process exits within the 20-second window the kill signal is never
sent; otherwise the kill signal is sent exactly once, followed by an
unconditional wait, and in both cases the process is gone afterwards. -/
theorem c7_emergency_shutdown_policy :
    emergencyShutdownTrace true = [SdEvent.sendSigint, SdEvent.waitWithTimeout20] ∧
    emergencyShutdownTrace false =
      [SdEvent.sendSigint, SdEvent.waitWithTimeout20, SdEvent.sendSigkill,
       SdEvent.waitUnconditional] ∧
    (emergencyShutdownTrace true).count SdEvent.sendSigkill = 0 ∧
    (emergencyShutdownTrace false).count SdEvent.sendSigkill = 1 ∧
    processGone true (emergencyShutdownTrace true) = true ∧
    processGone false (emergencyShutdownTrace false) = true := by
  decide

/-- Counterexample to claim C3: in an iteration in which everything
succeeds except the completion broadcast, which times out, the scheduler
terminates with an error log (reusing the start-message wording of the
source) and the retention cleanup never runs — the completion broadcast is
not best-effort. -/
theorem c3_completion_broadcast_fatal :
    (runBackupIteration
        { flushOnSave := true, silent := false, keepFullBackup := 2,
          fullBackupEvery := 336, rcloneConfigured := false }
        doneBroadcastTimeoutEnv).2 =
      some ["[BACKUP] Timed out while broadcasting start message."] ∧
    decide (BkEvent.duplicityCleanup ∈
      (runBackupIteration
        { flushOnSave := true, silent := false, keepFullBackup := 2,
          fullBackupEvery := 336, rcloneConfigured := false }
        doneBroadcastTimeoutEnv).1) = false := by
  constructor
  · rfl
  · rfl

/-- Claim C3 as amended: a failure to measure the source folder's size is
best-effort — the iteration still completes, the completion broadcast is
sent carrying no size, the retention cleanup and, when configured, the
remote sync still run, and further iterations still occur — but a failure
or timeout of the backup-completion broadcast itself is fatal: whichever
way the send fails, it terminates the scheduler and the retention cleanup
and remote sync of that iteration never run. -/
theorem c3_best_effort_scope :
    (∀ (f : Nat → Option String) (keep every : Nat),
        runBackupIteration
          { flushOnSave := true, silent := false, keepFullBackup := keep,
            fullBackupEvery := every, rcloneConfigured := false } (allOkEnv none f) =
          ([BkEvent.broadcastStart, BkEvent.saveOff, BkEvent.saveAll true, BkEvent.awaitSend,
            BkEvent.awaitRecvWait, BkEvent.duplicityBackup, BkEvent.saveOn,
            BkEvent.broadcastDone none, BkEvent.duplicityCleanup], none))
    ∧ (∀ (keep every : Nat),
        runBackupIteration
          { flushOnSave := true, silent := false, keepFullBackup := keep,
            fullBackupEvery := every, rcloneConfigured := true }
          (allOkEnv none (fun _ => none)) =
          ([BkEvent.broadcastStart, BkEvent.saveOff, BkEvent.saveAll true, BkEvent.awaitSend,
            BkEvent.awaitRecvWait, BkEvent.duplicityBackup, BkEvent.saveOn,
            BkEvent.broadcastDone none, BkEvent.duplicityCleanup, BkEvent.rcloneSync 0], none))
    ∧ (∀ (f g : Nat → Option String) (sz : Option Nat) (keep every : Nat),
        ((runSchedule
            { flushOnSave := true, silent := false, keepFullBackup := keep,
              fullBackupEvery := every, rcloneConfigured := false }
            [allOkEnv none f, allOkEnv sz g]).1.length = 2
          ∧ (runSchedule
              { flushOnSave := true, silent := false, keepFullBackup := keep,
                fullBackupEvery := every, rcloneConfigured := false }
              [allOkEnv none f, allOkEnv sz g]).2 = none))
    ∧ (∀ (f : Nat → Option String) (sz : Option Nat) (keep every : Nat) (b : Bool),
        ((runBackupIteration
            { flushOnSave := true, silent := false, keepFullBackup := keep,
              fullBackupEvery := every, rcloneConfigured := b }
            { allOkEnv sz f with broadcastDoneRes := SendRes.timedOut }).2 =
            some ["[BACKUP] Timed out while broadcasting start message."]
          ∧ decide (BkEvent.duplicityCleanup ∈
              (runBackupIteration
                { flushOnSave := true, silent := false, keepFullBackup := keep,
                  fullBackupEvery := every, rcloneConfigured := b }
                { allOkEnv sz f with broadcastDoneRes := SendRes.timedOut }).1) = false
          ∧ decide (BkEvent.rcloneSync 0 ∈
              (runBackupIteration
                { flushOnSave := true, silent := false, keepFullBackup := keep,
                  fullBackupEvery := every, rcloneConfigured := b }
                { allOkEnv sz f with broadcastDoneRes := SendRes.timedOut }).1) = false))
    ∧ (∀ (f : Nat → Option String) (sz : Option Nat) (keep every : Nat) (b : Bool),
        ((runBackupIteration
            { flushOnSave := true, silent := false, keepFullBackup := keep,
              fullBackupEvery := every, rcloneConfigured := b }
            { allOkEnv sz f with broadcastDoneRes := SendRes.chanClosed }).2 =
            some ["[BACKUP] Failed to broadcast start message."]
          ∧ decide (BkEvent.duplicityCleanup ∈
              (runBackupIteration
                { flushOnSave := true, silent := false, keepFullBackup := keep,
                  fullBackupEvery := every, rcloneConfigured := b }
                { allOkEnv sz f with broadcastDoneRes := SendRes.chanClosed }).1) = false
          ∧ decide (BkEvent.rcloneSync 0 ∈
              (runBackupIteration
                { flushOnSave := true, silent := false, keepFullBackup := keep,
                  fullBackupEvery := every, rcloneConfigured := b }
                { allOkEnv sz f with broadcastDoneRes := SendRes.chanClosed }).1) = false)) := by
  refine ⟨?_, ?_, ?_, ?_, ?_⟩
  · intro f keep every
    rfl
  · intro keep every
    rfl
  · intro f g sz keep every
    exact ⟨rfl, rfl⟩
  · intro f sz keep every b
    exact ⟨rfl, rfl, rfl⟩
  · intro f sz keep every b
    exact ⟨rfl, rfl, rfl⟩

/-- Claim C4: in a successful iteration with flush-on-save set and silent
unset, the events happen in exactly the claimed order — start broadcast,
disable autosave, full save with flush, handshake send, handshake wait,
backup-tool invocation, enable autosave, completion broadcast carrying the
size, retention cleanup — with no grace sleep; with flush-on-save unset
the same run has the 2-minute grace sleep between the handshake wait and
the backup-tool invocation. -/
theorem c4_backup_step_order :
    (∀ (n keep every : Nat) (f : Nat → Option String),
        runBackupIteration
          { flushOnSave := true, silent := false, keepFullBackup := keep,
            fullBackupEvery := every, rcloneConfigured := false } (allOkEnv (some n) f) =
          ([BkEvent.broadcastStart, BkEvent.saveOff, BkEvent.saveAll true, BkEvent.awaitSend,
            BkEvent.awaitRecvWait, BkEvent.duplicityBackup, BkEvent.saveOn,
            BkEvent.broadcastDone (some n), BkEvent.duplicityCleanup], none))
    ∧ (∀ (n keep every : Nat) (f : Nat → Option String),
        decide (BkEvent.graceSleep ∈
          (runBackupIteration
            { flushOnSave := true, silent := false, keepFullBackup := keep,
              fullBackupEvery := every, rcloneConfigured := false }
            (allOkEnv (some n) f)).1) = false)
    ∧ (∀ (n keep every : Nat) (f : Nat → Option String),
        runBackupIteration
          { flushOnSave := false, silent := false, keepFullBackup := keep,
            fullBackupEvery := every, rcloneConfigured := false } (allOkEnv (some n) f) =
          ([BkEvent.broadcastStart, BkEvent.saveOff, BkEvent.saveAll false, BkEvent.awaitSend,
            BkEvent.awaitRecvWait, BkEvent.graceSleep, BkEvent.duplicityBackup, BkEvent.saveOn,
            BkEvent.broadcastDone (some n), BkEvent.duplicityCleanup], none)) := by
  refine ⟨?_, ?_, ?_⟩
  · intro n keep every f
    rfl
  · intro n keep every f
    rfl
  · intro n keep every f
    rfl

/-- The send-retry loop performs at most one more send than it has
retries left. -/
theorem mailSendGo_le (script : Nat → Bool) :
    ∀ (r sent : Nat), (mailSendGo script sent r).1 ≤ r + 1 := by
  intro r
  induction r with
  | zero =>
    intro sent
    simp [mailSendGo]
  | succ m ih =>
    intro sent
    by_cases hs : script sent
    · simp [mailSendGo, hs]
    · have := ih (sent + 1)
      simp only [mailSendGo, hs, if_false, Bool.false_eq_true]
      omega

/-- Counterexample to claim C9: when every send fails, the digest send is
attempted six times, not at most five — the loop performs the initial
attempt plus five retries before giving up. -/
theorem c9_six_send_attempts :
    (mailerBatchStep [{ errLog := ["incident"], finalIncident := false, time := 0 }]
        (fun _ => false)).1 = 6 ∧
    decide ((mailerBatchStep [{ errLog := ["incident"], finalIncident := false, time := 0 }]
        (fun _ => false)).1 ≤ 5) = false := by
  constructor
  · rfl
  · rfl

/-- Claim C9 as amended: sending a composed digest is attempted at most
six times (the initial attempt plus five retries); when all six fail the
digest is dropped without terminating the mailer, and after the send
attempt the mailer terminates exactly when the batch contained a final
report, otherwise it loops back to waiting. -/
theorem c9_mailer_send_policy :
    (∀ script : Nat → Bool, (mailSendLoop script).1 ≤ 6)
    ∧ mailSendLoop (fun _ => false) = (6, false)
    ∧ (∀ (batch : List MailRequest) (script : Nat → Bool),
        (mailerBatchStep batch script).2.2 =
          (if isFinalBatch batch then MailerNext.terminate else MailerNext.loopBack)) := by
  refine ⟨?_, ?_, ?_⟩
  · intro script
    exact mailSendGo_le script 5 0
  · rfl
  · intro batch script
    rfl

end ServerManager
